import Mathlib

/-!
Verification of the helper module of the simplefog plugin (`src/js/helpers.js`).

The heart of the module is `readPixel`, a single-pixel GPU readback: it may
rasterize its target into a freshly generated texture, binds the texture on the
host renderer, issues one `gl.readPixels` call into a 4-byte buffer, destroys
the texture when it generated one itself, and returns the buffer.  We embed the
function as a trace semantics: one `readPixel` call produces the ordered list of
host-engine calls it completed together with its returned buffer (or `none`
when an underlying call threw, since JavaScript exceptions abort the remaining
statements and propagate to the caller).  A small state machine over these
traces tracks the host's shared state (current bind target, set of live
textures).

The pure string and array helpers `webToHex`, `hexToWeb` and `hexObjsToArr`
are embedded directly over `List Char` and `List Int`, with JavaScript's
`String.replace` (string pattern, first occurrence only) modelled explicitly.
-/

namespace Simplefog

/-- WebGL pixel-format constants passed to the single `gl.readPixels` call
(`gl.RGBA` and `gl.UNSIGNED_BYTE` in `src/js/helpers.js` line 105). -/
inductive GLConst
  | RGBA
  | UNSIGNED_BYTE
  deriving DecidableEq, Repr

/-- One completed call into the host rendering engine, as issued by
`readPixel`.  Textures are identified by numeric ids. -/
inductive Event
  | generateTexture (tex : Nat)
  | bind (tex : Nat)
  | readPixels (x y w h : Int) (format ty : GLConst)
  | destroy (tex : Nat) (deep : Bool)
  deriving DecidableEq, Repr

/-- The drawable argument of `readPixel`: either the object already is a
`PIXI.RenderTexture` (carrying its id and its `baseTexture.resolution`), or it
is some other drawable that must first be rasterized via `generateTexture`. -/
inductive Target
  | renderTexture (tex : Nat) (resolution : Int)
  | drawable
  deriving DecidableEq, Repr

/-- Model of the ambient host (`canvas.app.renderer` and its `gl` context) for
the duration of one call: the texture `generateTexture` would produce (a fresh
id, and its `baseTexture.resolution`), which of the underlying host calls throw
(in JavaScript any of them may raise, and `readPixel` installs no handler), and
the bytes `gl.readPixels` writes into the output buffer when it succeeds. -/
structure Host where
  freshId : Nat
  genResolution : Int
  genFails : Bool
  bindFails : Bool
  readFails : Bool
  pixelBytes : Nat → Nat

/-- Result of one `readPixel` call: the host calls that completed, in order;
the returned buffer (`none` when an underlying call threw and the exception
propagated to the caller); and the final value of the `generated` ownership
flag. -/
structure Outcome where
  trace : List Event
  result : Option (List Nat)
  generated : Bool
  deriving DecidableEq, Repr

/-- The 4-byte `Uint8Array` as returned on success: `gl.readPixels` writes one
byte per RGBA channel, so each entry is the host-supplied value reduced
mod 256. -/
def pixelOf (host : Host) : List Nat :=
  [host.pixelBytes 0 % 256, host.pixelBytes 1 % 256,
   host.pixelBytes 2 % 256, host.pixelBytes 3 % 256]

/-- Tail of `readPixel` once `renderTexture` is in hand (source lines 98-109):
read `baseTexture.resolution` (`res`), bind the texture, issue
`gl.readPixels(x * resolution, y * resolution, 1, 1, gl.RGBA,
gl.UNSIGNED_BYTE, pixel)`, and destroy the texture deeply when `generated` is
set.  `t0` is the trace accumulated so far; a call that throws aborts the
remaining statements, so later events are not appended. -/
def sampleTexture (host : Host) (tex : Nat) (res : Int) (generated : Bool)
    (x y : Int) (t0 : List Event) : Outcome :=
  if host.bindFails then ⟨t0, none, generated⟩
  else
    let t1 := t0 ++ [Event.bind tex]
    if host.readFails then ⟨t1, none, generated⟩
    else
      let t2 := t1 ++ [Event.readPixels (x * res) (y * res)
        1 1 GLConst.RGBA GLConst.UNSIGNED_BYTE]
      if generated then
        ⟨t2 ++ [Event.destroy tex true], some (pixelOf host), generated⟩
      else
        ⟨t2, some (pixelOf host), generated⟩

/-- Shallow embedding of `readPixel` (`src/js/helpers.js` lines 86-110).  When
`target instanceof PIXI.RenderTexture` the texture is the target itself and
`generated` stays `false`; otherwise `renderer.generateTexture(target)` runs
first (if it throws, nothing further happens and `generated` was never set),
producing a fresh truthy texture, and `generated` becomes `true`.  `x` and `y`
default to 0 exactly as in the source. -/
def readPixel (host : Host) (target : Target)
    (x : Int := 0) (y : Int := 0) : Outcome :=
  match target with
  | Target.renderTexture tex res =>
      sampleTexture host tex res false x y []
  | Target.drawable =>
      if host.genFails then ⟨[], none, false⟩
      else
        sampleTexture host host.freshId host.genResolution true x y
          [Event.generateTexture host.freshId]

/-- Id of the texture `readPixel` samples from: the target itself when it is a
render texture, the freshly generated texture otherwise. -/
def sampledTex (host : Host) : Target → Nat
  | Target.renderTexture tex _ => tex
  | Target.drawable => host.freshId

/-- Resolution factor of the sampled texture (`renderTexture.baseTexture.resolution`). -/
def sampledResolution (host : Host) : Target → Int
  | Target.renderTexture _ res => res
  | Target.drawable => host.genResolution

/-- Recognizes `generateTexture` events. -/
def isGenerate : Event → Bool
  | Event.generateTexture _ => true
  | _ => false

/-- Recognizes `destroy` events. -/
def isDestroy : Event → Bool
  | Event.destroy _ _ => true
  | _ => false

/-- Recognizes `readPixels` events. -/
def isRead : Event → Bool
  | Event.readPixels _ _ _ _ _ _ => true
  | _ => false

/-- Shared state of the host graphics context that the traced calls touch: the
current render-target binding and the set of live GPU textures. -/
structure GLState where
  bound : Option Nat
  liveTextures : Finset Nat
  deriving DecidableEq

/-- Effect of one completed host call on the shared state: `generateTexture`
creates a live texture, `bind` replaces the current binding, `readPixels`
leaves shared state untouched, `destroy` releases the texture. -/
def applyEvent (s : GLState) : Event → GLState
  | Event.generateTexture tex => ⟨s.bound, insert tex s.liveTextures⟩
  | Event.bind tex => ⟨some tex, s.liveTextures⟩
  | Event.readPixels _ _ _ _ _ _ => s
  | Event.destroy tex _ => ⟨s.bound, s.liveTextures.erase tex⟩

/-- Effect of a whole trace on the shared state, first event first. -/
def applyTrace (s : GLState) (events : List Event) : GLState :=
  events.foldl applyEvent s

/-- JavaScript `s.replace(pat, rep)` for a string pattern: replaces the first
(leftmost) occurrence of `pat` in `s` by `rep`, and returns `s` unchanged when
`pat` does not occur.  (An empty pattern matches at index 0, as in
JavaScript.) -/
def replaceFirst (s pat rep : List Char) : List Char :=
  match s with
  | [] => if pat.isPrefixOf ([] : List Char) then rep else []
  | c :: t =>
      if pat.isPrefixOf (c :: t) then rep ++ (c :: t).drop pat.length
      else c :: replaceFirst t pat rep

/-- Embedding of `webToHex` (source line 6-8): `n.replace('#', '0x')`. -/
def webToHex (n : List Char) : List Char :=
  replaceFirst n ['#'] ['0', 'x']

/-- Embedding of `hexToWeb` (source line 15-17): `` (`${n}`).replace('0x', '#') ``;
the template-literal coercion is the identity on string inputs. -/
def hexToWeb (n : List Char) : List Char :=
  replaceFirst n ['0', 'x'] ['#']

/-- Decides whether `pat` occurs as a contiguous substring of the second list. -/
def hasSub (pat : List Char) : List Char → Bool
  | [] => pat.isPrefixOf ([] : List Char)
  | c :: t => pat.isPrefixOf (c :: t) || hasSub pat t

/-- A coordinate pair as consumed by `hexObjsToArr`. -/
structure Point where
  x : Int
  y : Int
  deriving DecidableEq, Repr

/-- Embedding of `hexObjsToArr` (source lines 44-54): `forEach` pushes each
point's `x` then `y` onto `a`, then `hex[0].x` and `hex[0].y` are pushed to
close the shape.  On an empty array the JavaScript would throw (`hex[0]` is
`undefined`), hence `none`. -/
def hexObjsToArr (hex : List Point) : Option (List Int) :=
  match hex with
  | [] => none
  | first :: rest =>
      some
        (((first :: rest).foldl (fun a p => a ++ [p.x, p.y]) ([] : List Int))
          ++ [first.x, first.y])

/-! ### Helper lemmas -/

/-- Any buffer a successful `readPixel` returns is exactly the mod-256 host
bytes: the code never post-processes, clamps or validates the read data. -/
theorem readPixel_result_eq_pixelOf (host : Host) (target : Target) (x y : Int)
    (p : List Nat) (h : (readPixel host target x y).result = some p) :
    p = pixelOf host := by
  cases target <;>
    cases hg : host.genFails <;> cases hb : host.bindFails <;>
      cases hr : host.readFails <;>
        simp [readPixel, sampleTexture, hg, hb, hr] at h <;> simp [h]

/-- Entries of `pixelOf` are bytes. -/
theorem pixelOf_mem_le (host : Host) (b : Nat) (hb : b ∈ pixelOf host) :
    b ≤ 255 := by
  simp [pixelOf] at hb
  rcases hb with h | h | h | h <;> omega

/-! ### Claim theorems -/

/-- C5: every buffer `readPixel` returns has exactly 4 bytes, each of them in
the range [0, 255]. -/
theorem readPixel_returns_four_bytes (host : Host) (target : Target) (x y : Int)
    (p : List Nat) (h : (readPixel host target x y).result = some p) :
    p.length = 4 ∧ ∀ b ∈ p, b ≤ 255 := by
  obtain rfl := readPixel_result_eq_pixelOf host target x y p h
  exact ⟨rfl, fun b hb => pixelOf_mem_le host b hb⟩

/-- Concrete host for witnesses: fresh texture id 5, resolution 2, no throwing
call, read bytes 300, 301, 302, 303 (i.e. 44, 45, 46, 47 after the byte
store). -/
def hostOk : Host := ⟨5, 2, false, false, false, fun i => 300 + i⟩

/-- Witness for C5 at a concrete successful call. -/
theorem readPixel_returns_four_bytes_witness :
    ([44, 45, 46, 47] : List Nat).length = 4
    ∧ ∀ b ∈ ([44, 45, 46, 47] : List Nat), b ≤ 255 :=
  readPixel_returns_four_bytes hostOk (Target.renderTexture 3 1) 0 0
    [44, 45, 46, 47] (by decide)

/-- C4: a call whose target already is a render texture generates no texture,
destroys no texture, and its `generated` ownership flag stays `false`. -/
theorem readPixel_renderTexture_no_alloc (host : Host) (tex : Nat) (res : Int)
    (x y : Int) :
    (readPixel host (Target.renderTexture tex res) x y).trace.countP
        (fun e => isGenerate e) = 0
    ∧ (readPixel host (Target.renderTexture tex res) x y).trace.countP
        (fun e => isDestroy e) = 0
    ∧ (readPixel host (Target.renderTexture tex res) x y).generated = false := by
  cases hb : host.bindFails <;> cases hr : host.readFails <;>
    simp [readPixel, sampleTexture, hb, hr, isGenerate, isDestroy]

/-- C2: any low-level read issued by `readPixel target x y` is at device
coordinates (x * resolution, y * resolution) with width 1, height 1, RGBA
format and unsigned-byte type, where resolution is the sampled texture's
resolution factor. -/
theorem readPixel_read_coords (host : Host) (target : Target) (x y : Int)
    (a b w h : Int) (f t : GLConst)
    (hm : Event.readPixels a b w h f t ∈ (readPixel host target x y).trace) :
    a = x * sampledResolution host target
    ∧ b = y * sampledResolution host target
    ∧ w = 1 ∧ h = 1 ∧ f = GLConst.RGBA ∧ t = GLConst.UNSIGNED_BYTE := by
  cases target <;>
    cases hg : host.genFails <;> cases hb : host.bindFails <;>
      cases hr : host.readFails <;>
        simp [readPixel, sampleTexture, sampledResolution, hg, hb, hr] at hm <;>
          simp_all [sampledResolution]

/-- Witness for C2: with resolution 2 a query at (3, 4) reads at (6, 8). -/
theorem readPixel_read_coords_witness :
    (6 : Int) = 3 * sampledResolution hostOk (Target.renderTexture 7 2)
    ∧ (8 : Int) = 4 * sampledResolution hostOk (Target.renderTexture 7 2)
    ∧ (1 : Int) = 1 ∧ (1 : Int) = 1 ∧ GLConst.RGBA = GLConst.RGBA
    ∧ GLConst.UNSIGNED_BYTE = GLConst.UNSIGNED_BYTE :=
  readPixel_read_coords hostOk (Target.renderTexture 7 2) 3 4 6 8 1 1
    GLConst.RGBA GLConst.UNSIGNED_BYTE (by decide)

/-- C8: `x` and `y` default to 0; on a render-texture target with resolution 1
a successful call issues exactly `bind` followed by
`readPixels(0, 0, 1, 1, RGBA, UNSIGNED_BYTE)` and makes no destroy call. -/
theorem readPixel_default_args (host : Host) (tex : Nat)
    (hb : host.bindFails = false) (hr : host.readFails = false) :
    readPixel host (Target.renderTexture tex 1)
      = ⟨[Event.bind tex,
          Event.readPixels 0 0 1 1 GLConst.RGBA GLConst.UNSIGNED_BYTE],
         some (pixelOf host), false⟩
    ∧ (readPixel host (Target.renderTexture tex 1)).trace.countP
        (fun e => isDestroy e) = 0 := by
  simp [readPixel, sampleTexture, hb, hr, isDestroy]

/-- Witness for C8 at a concrete host. -/
theorem readPixel_default_args_witness :
    readPixel hostOk (Target.renderTexture 3 1)
      = ⟨[Event.bind 3,
          Event.readPixels 0 0 1 1 GLConst.RGBA GLConst.UNSIGNED_BYTE],
         some [44, 45, 46, 47], false⟩
    ∧ (readPixel hostOk (Target.renderTexture 3 1)).trace.countP
        (fun e => isDestroy e) = 0 := by
  have h := readPixel_default_args hostOk 3 rfl rfl
  simpa [pixelOf, hostOk] using h

/-- Host whose `renderer.renderTexture.bind` throws. -/
def hostBindFail : Host := ⟨5, 2, false, true, false, fun _ => 0⟩

/-- Host whose `gl.readPixels` throws. -/
def hostReadFail : Host := ⟨5, 2, false, false, true, fun _ => 0⟩

/-- C1 fails on the code: there is a call on a non-texture target in which the
sampler generates a texture, the underlying bind call throws, and the call
exits with the generated texture never destroyed — the texture is leaked,
because the source has no try/finally around lines 100-108. -/
theorem readPixel_leaks_on_bind_throw :
    (readPixel hostBindFail Target.drawable).generated = true
    ∧ (readPixel hostBindFail Target.drawable).trace.countP
        (fun e => isGenerate e) = 1
    ∧ (readPixel hostBindFail Target.drawable).trace.countP
        (fun e => isDestroy e) = 0
    ∧ (readPixel hostBindFail Target.drawable).result = none := by
  decide

/-- C1 (amended): whenever the underlying calls all succeed, the texture the
sampler generated for a non-texture target is destroyed — deeply — before the
call returns. -/
theorem readPixel_generated_destroyed (host : Host) (x y : Int)
    (hg : host.genFails = false) (hb : host.bindFails = false)
    (hr : host.readFails = false) :
    (readPixel host Target.drawable x y).trace.countP
        (fun e => isDestroy e) = 1
    ∧ Event.destroy host.freshId true ∈ (readPixel host Target.drawable x y).trace
    ∧ (readPixel host Target.drawable x y).result.isSome = true := by
  simp [readPixel, sampleTexture, hg, hb, hr, isDestroy]

/-- Witness for the amended C1 at a concrete successful call. -/
theorem readPixel_generated_destroyed_witness :
    (readPixel hostOk Target.drawable 0 0).trace.countP
        (fun e => isDestroy e) = 1
    ∧ Event.destroy hostOk.freshId true ∈ (readPixel hostOk Target.drawable 0 0).trace
    ∧ (readPixel hostOk Target.drawable 0 0).result.isSome = true :=
  readPixel_generated_destroyed hostOk 0 0 rfl rfl rfl

/-- C3 fails on the code: when `gl.readPixels` throws during a call on a plain
drawable (resolution 2, query at (5, 10)), exactly one texture is generated
but zero destroy calls are made, not exactly one. -/
theorem readPixel_no_destroy_on_read_throw :
    (readPixel hostReadFail Target.drawable 5 10).trace
      = [Event.generateTexture 5, Event.bind 5]
    ∧ (readPixel hostReadFail Target.drawable 5 10).trace.countP
        (fun e => isDestroy e) = 0 := by
  decide

/-- C3 (amended): a call on a non-texture target in which no underlying call
throws produces exactly the trace `generateTexture`, `bind`,
`readPixels(x * resolution, y * resolution, 1, 1, RGBA, UNSIGNED_BYTE)`,
`destroy(texture, true)` — one generate and one deep destroy of the same
texture, in that order, independent of the pixel values read. -/
theorem readPixel_drawable_trace (host : Host) (x y : Int)
    (hg : host.genFails = false) (hb : host.bindFails = false)
    (hr : host.readFails = false) :
    (readPixel host Target.drawable x y).trace
      = [Event.generateTexture host.freshId, Event.bind host.freshId,
         Event.readPixels (x * host.genResolution) (y * host.genResolution)
           1 1 GLConst.RGBA GLConst.UNSIGNED_BYTE,
         Event.destroy host.freshId true] := by
  simp [readPixel, sampleTexture, hg, hb, hr]

/-- Witness for the amended C3: a plain drawable with resolution 2 at (5, 10)
yields generate, bind, `readPixels(10, 20, 1, 1, ...)`, destroy, in order. -/
theorem readPixel_drawable_trace_witness :
    (readPixel hostOk Target.drawable 5 10).trace
      = [Event.generateTexture 5, Event.bind 5,
         Event.readPixels 10 20 1 1 GLConst.RGBA GLConst.UNSIGNED_BYTE,
         Event.destroy 5 true] := by
  have h := readPixel_drawable_trace hostOk 5 10 rfl rfl rfl
  simpa [hostOk] using h

/-- C6 fails on the code: there is a call (drawable target, `gl.readPixels`
throws) that changes shared state other than the current render-target
binding — starting from a context with no live texture, the set of live
textures is no longer empty afterwards, because the generated texture was
never destroyed. -/
theorem readPixel_mutates_beyond_binding :
    (applyTrace (GLState.mk none ∅)
        (readPixel hostReadFail Target.drawable).trace).liveTextures
      ≠ (GLState.mk none ∅).liveTextures := by
  decide

/-- C6 (amended): a call in which no underlying call throws changes no shared
state other than the current render-target binding, which it leaves pointing
at the sampled texture without restoring the previous binding; the set of
live textures is exactly what it was before. -/
theorem readPixel_shared_state (host : Host) (target : Target) (x y : Int)
    (s : GLState) (hfresh : host.freshId ∉ s.liveTextures)
    (hsome : (readPixel host target x y).result.isSome = true) :
    applyTrace s (readPixel host target x y).trace
      = ⟨some (sampledTex host target), s.liveTextures⟩ := by
  cases target <;>
    cases hg : host.genFails <;> cases hb : host.bindFails <;>
      cases hr : host.readFails <;>
        simp [readPixel, sampleTexture, hg, hb, hr] at hsome ⊢ <;>
          simp [applyTrace, applyEvent, sampledTex, Finset.erase_insert hfresh]

/-- Witness for the amended C6 at a concrete successful call on a drawable. -/
theorem readPixel_shared_state_witness :
    applyTrace (GLState.mk (some 9) ∅) (readPixel hostOk Target.drawable 0 0).trace
      = ⟨some (sampledTex hostOk Target.drawable), (GLState.mk (some 9) ∅).liveTextures⟩ :=
  readPixel_shared_state hostOk Target.drawable 0 0 (GLState.mk (some 9) ∅)
    (by decide) (by decide)

/-- C7: `readPixel` retries nothing (at most one low-level read per call),
recovers from nothing (a throwing `bind`, `readPixels` or `generateTexture`
leaves the caller with the propagated exception and no result), validates no
coordinate range (the read is issued at exactly x * resolution and
y * resolution whatever those values are), and returns whatever bytes the
host wrote, unmodified. -/
theorem readPixel_no_validation_no_recovery (host : Host) (target : Target)
    (x y : Int) :
    (readPixel host target x y).trace.countP (fun e => isRead e) ≤ 1
    ∧ (host.bindFails = true → (readPixel host target x y).result = none)
    ∧ (host.readFails = true → (readPixel host target x y).result = none)
    ∧ (host.genFails = true → (readPixel host Target.drawable x y).result = none)
    ∧ (host.genFails = false → host.bindFails = false → host.readFails = false →
        Event.readPixels (x * sampledResolution host target)
            (y * sampledResolution host target) 1 1
            GLConst.RGBA GLConst.UNSIGNED_BYTE
          ∈ (readPixel host target x y).trace)
    ∧ (∀ p, (readPixel host target x y).result = some p → p = pixelOf host) := by
  refine ⟨?_, ?_, ?_, ?_, ?_,
    fun p hp => readPixel_result_eq_pixelOf host target x y p hp⟩ <;>
  · cases target <;>
      cases hg : host.genFails <;> cases hb : host.bindFails <;>
        cases hr : host.readFails <;>
          simp [readPixel, sampleTexture, sampledResolution, hg, hb, hr, isRead]

/-- Witness for C7 at a concrete call with an out-of-range negative
coordinate: the read is issued at (-7 * 2, 2 * 2) = (-14, 4) unchecked. -/
theorem readPixel_no_validation_no_recovery_witness :
    Event.readPixels (-14) 4 1 1 GLConst.RGBA GLConst.UNSIGNED_BYTE
      ∈ (readPixel hostOk (Target.renderTexture 9 2) (-7) 2).trace := by
  have h := (readPixel_no_validation_no_recovery hostOk
    (Target.renderTexture 9 2) (-7) 2).2.2.2.2.1 rfl rfl rfl
  simpa [sampledResolution] using h

/-- Unfolding lemma: `replaceFirst` replaces at the head when the pattern
matches there. -/
theorem replaceFirst_cons_pos {pat rep : List Char} {c : Char} {t : List Char}
    (h : pat.isPrefixOf (c :: t) = true) :
    replaceFirst (c :: t) pat rep = rep ++ (c :: t).drop pat.length := by
  simp [replaceFirst, h]

/-- Unfolding lemma: `replaceFirst` skips the head when the pattern does not
match there. -/
theorem replaceFirst_cons_neg {pat rep : List Char} {c : Char} {t : List Char}
    (h : pat.isPrefixOf (c :: t) = false) :
    replaceFirst (c :: t) pat rep = c :: replaceFirst t pat rep := by
  simp [replaceFirst, h]

/-- On a string starting with '#', `webToHex` rewrites the head marker. -/
theorem webToHex_cons_hash (t : List Char) :
    webToHex ('#' :: t) = '0' :: 'x' :: t := by
  simp [webToHex, replaceFirst, List.isPrefixOf]

/-- On a string starting with "0x", `hexToWeb` rewrites the head marker. -/
theorem hexToWeb_cons_0x (t : List Char) :
    hexToWeb ('0' :: 'x' :: t) = '#' :: t := by
  simp [hexToWeb, replaceFirst, List.isPrefixOf]

/-- `webToHex` keeps a non-'#' head and recurses. -/
theorem webToHex_cons_ne {c : Char} (t : List Char) (hc : ¬c = '#') :
    webToHex (c :: t) = c :: webToHex t := by
  apply replaceFirst_cons_neg
  simp [List.isPrefixOf]
  exact fun h => hc h.symm

/-- C9: on any string that contains '#' and does not contain the substring
"0x", converting with `webToHex` and back with `hexToWeb` is the identity —
each function replaces only the first occurrence of its marker. -/
theorem hexToWeb_webToHex_id (s : List Char) (hhash : '#' ∈ s)
    (hno : hasSub ['0', 'x'] s = false) : hexToWeb (webToHex s) = s := by
  induction s with
  | nil => cases hhash
  | cons c t ih =>
    rw [hasSub] at hno
    rcases Bool.or_eq_false_iff.mp hno with ⟨hpre, hno'⟩
    by_cases hc : c = '#'
    · subst hc
      rw [webToHex_cons_hash, hexToWeb_cons_0x]
    · have hmem : '#' ∈ t := by
        rcases List.mem_cons.mp hhash with h | h
        · exact absurd h.symm hc
        · exact h
      rw [webToHex_cons_ne t hc]
      have hkey : (['0', 'x'] : List Char).isPrefixOf (c :: webToHex t) = false := by
        cases t with
        | nil => cases hmem
        | cons d u =>
          by_cases hdh : d = '#'
          · subst hdh
            rw [webToHex_cons_hash]
            simp [List.isPrefixOf]
          · rw [webToHex_cons_ne u hdh]
            simp only [List.isPrefixOf, Bool.and_eq_false_iff] at hpre ⊢
            rcases hpre with h | h
            · exact Or.inl h
            · exact Or.inr (by simpa using h)
      calc hexToWeb (c :: webToHex t)
          = c :: hexToWeb (webToHex t) := replaceFirst_cons_neg hkey
        _ = c :: t := by rw [ih hmem hno']

/-- Witness for C9 at the concrete string "a#b". -/
theorem hexToWeb_webToHex_id_witness :
    hexToWeb (webToHex ['a', '#', 'b']) = ['a', '#', 'b'] :=
  hexToWeb_webToHex_id ['a', '#', 'b'] (by decide) (by decide)

/-- The imperative push loop of `hexObjsToArr` flattens the points in input
order: the fold equals the accumulator followed by the x-then-y pairs. -/
theorem foldl_pushPoints (l : List Point) (init : List Int) :
    l.foldl (fun a p => a ++ [p.x, p.y]) init
      = init ++ l.flatMap (fun p => [p.x, p.y]) := by
  induction l generalizing init with
  | nil => simp
  | cons p t ih => simp [List.foldl_cons, List.flatMap_cons, ih]

/-- Flattening n points yields 2 * n coordinates. -/
theorem flatMap_pairs_length (l : List Point) :
    (l.flatMap (fun p => [p.x, p.y])).length = 2 * l.length := by
  induction l with
  | nil => simp
  | cons p t ih =>
    simp [List.flatMap_cons, ih]
    ring

/-- C10: on a non-empty list of points, `hexObjsToArr` returns the flat list
of the points' coordinates, x then y for each point in input order, followed
by the first point's x and y again to close the polygon — a list of exactly
2 * n + 2 numbers for n input points. -/
theorem hexObjsToArr_closed_polygon (first : Point) (rest : List Point) :
    hexObjsToArr (first :: rest)
      = some (((first :: rest).flatMap (fun p => [p.x, p.y]))
          ++ [first.x, first.y])
    ∧ (((first :: rest).flatMap (fun p => [p.x, p.y]))
          ++ [first.x, first.y]).length = 2 * (first :: rest).length + 2 := by
  constructor
  · simp [hexObjsToArr, foldl_pushPoints]
  · rw [List.length_append, flatMap_pairs_length]
    simp [List.length_cons]

end Simplefog
